import Mathlib

/-!
Verification of the `garde` credit-card validation rule
(`src/garde/src/rules/credit_card.rs`) against its specification.

The file embeds, shallowly:
  * the framework error type `Error` (`crate::error::Error`, used only
    through `Error::new(String)` here);
  * the raw error enum `card_validate::ValidateError` of the external
    checking crate (its four variants matched in the source, plus an
    `Other` variant standing for the open-ended unmatched raw reasons
    that the source's wildcard arm absorbs);
  * the wrapper `InvalidCard` and its `Display` implementation;
  * the `CreditCard` capability trait, as a structure bundling the
    associated error type's `Display` with the `validate_credit_card`
    method;
  * the blanket implementation for `T : AsRef<str>`, parameterised by
    the `as_ref` view function;
  * the entrypoint `apply`;
  * the external `card_validate::Validate::from` algorithm, which is not
    part of this repository and is therefore modelled from the spec.
-/

namespace Garde

/-- The framework-wide error type, `crate::error::Error`.  Only its
`Error::new(message)` constructor is used by this rule, so it is embedded
as a message-carrying structure. -/
structure Error where
  message : String
deriving DecidableEq, Repr

/-- `Error::new`. -/
def Error.new (message : String) : Error := ⟨message⟩

/-- Raw error enum of the external `card_validate` crate.  The source
matches four named variants and has a wildcard arm, so the raw taxonomy is
open-ended; `Other tag` stands for any raw reason outside the four named
ones (the `tag` records the raw reason's identity, which the wildcard arm
ignores). -/
inductive ValidateError where
  | InvalidFormat
  | InvalidLength
  | InvalidLuhn
  | UnknownType
  | Other (tag : String)
deriving DecidableEq, Repr

/-- Recognised-card descriptor returned by the external algorithm on
success (discarded by the adapter; only the issuer networks needed by the
test inputs are modelled). -/
inductive CardType where
  | Visa
  | Mastercard
deriving DecidableEq, Repr

/-- `pub struct InvalidCard(card_validate::ValidateError);` -/
structure InvalidCard where
  raw : ValidateError
deriving DecidableEq, Repr

/-- `impl Display for InvalidCard` — renders the wrapped raw error to the
fixed message strings, with a wildcard fallback. -/
def InvalidCard.display : InvalidCard → String
  | ⟨ValidateError.InvalidFormat⟩ => "invalid format"
  | ⟨ValidateError.InvalidLength⟩ => "invalid length"
  | ⟨ValidateError.InvalidLuhn⟩ => "invalid luhn"
  | ⟨ValidateError.UnknownType⟩ => "unknown type"
  | _ => "unknown error"

/-- `impl From<card_validate::ValidateError> for InvalidCard`. -/
def InvalidCard.fromRaw (e : ValidateError) : InvalidCard := ⟨e⟩

/-- The `CreditCard` capability trait: an associated displayable error
type `E` and the method `validate_credit_card`.  An instance of this
structure is one `impl CreditCard for T` together with the `Display`
implementation its associated error type is required to have. -/
structure CreditCardImpl (T : Type) (E : Type) where
  display : E → String
  validate_credit_card : T → Except E Unit

/-- The entrypoint `apply<T: CreditCard>(v: &T, _: ()) -> Result<(), Error>`:
on failure of the capability method, wraps the displayed error behind the
fixed prefix via `Error::new(format!("not a valid credit card number: {e}"))`. -/
def apply {T E : Type} (inst : CreditCardImpl T E) (v : T) : Unit → Except Error Unit :=
  fun _ =>
    match inst.validate_credit_card v with
    | Except.error e =>
        Except.error (Error.new ("not a valid credit card number: " ++ inst.display e))
    | Except.ok _ => Except.ok ()

/-- Modelled from the spec: the structural/format check of the external
`card_validate` crate (missing from the sources) — the value must be a
plausible numeric string, i.e. nonempty and all decimal digits. -/
def formatValid (s : String) : Bool :=
  decide (s.length > 0) && s.data.all Char.isDigit

/-- Modelled from the spec: the length check of the external
`card_validate` crate (missing from the sources) — the digit count must
lie in the known card-number length range. -/
def lengthValid (s : String) : Bool :=
  decide (12 ≤ s.length) && decide (s.length ≤ 19)

/-- Digit value of a character. -/
def digitVal (c : Char) : Nat := c.toNat - 48

/-- One addend of the Luhn sum: digits in even positions (counted from
the rightmost digit, which has position 0) are taken as-is, digits in odd
positions are doubled and reduced by 9 when the double exceeds 9. -/
def luhnStep (p : Nat × Nat) : Nat :=
  if p.1 % 2 == 1 then
    if 2 * p.2 > 9 then 2 * p.2 - 9 else 2 * p.2
  else p.2

/-- Modelled from the spec (glossary): the Luhn checksum of the external
`card_validate` crate (missing from the sources). -/
def luhnValid (s : String) : Bool :=
  ((s.data.reverse.map digitVal).enum.map luhnStep).sum % 10 == 0

/-- Modelled from the spec: issuer/network classification of the external
`card_validate` crate (missing from the sources) — prefix and length
rules for the modelled networks (Visa: leading 4 with length 13, 16 or
19; Mastercard: leading 51–55 with length 16), `none` for patterns no
modelled network recognises. -/
def classifyIssuer (s : String) : Option CardType :=
  match s.data with
  | '4' :: _ =>
      if s.length = 13 ∨ s.length = 16 ∨ s.length = 19 then some CardType.Visa else none
  | '5' :: c :: _ =>
      if ('1' ≤ c ∧ c ≤ '5') ∧ s.length = 16 then some CardType.Mastercard else none
  | _ => none

/-- Modelled from the spec: `card_validate::Validate::from`, the external
card-validation routine (missing from the sources).  It performs, in
order: (a) structural/format check, (b) length check, (c) Luhn checksum
verification, (d) issuer/network classification; it returns the
recognised-card descriptor on success and the structured failure reason of
the first failing check otherwise. -/
def card_validate_from (s : String) : Except ValidateError CardType :=
  if ¬ formatValid s then Except.error ValidateError.InvalidFormat
  else if ¬ lengthValid s then Except.error ValidateError.InvalidLength
  else if ¬ luhnValid s then Except.error ValidateError.InvalidLuhn
  else
    match classifyIssuer s with
    | some t => Except.ok t
    | none => Except.error ValidateError.UnknownType

/-- The blanket implementation `impl<T: AsRef<str>> CreditCard for T`,
parameterised by the `as_ref : T → String` view:
`let _ = card_validate::Validate::from(self.as_ref())?; Ok(())`
(the `?` operator converts the raw error through `From`). -/
def blanketValidateCreditCard {T : Type} (as_ref : T → String) (v : T) :
    Except InvalidCard Unit :=
  match card_validate_from (as_ref v) with
  | Except.error e => Except.error (InvalidCard.fromRaw e)
  | Except.ok _ => Except.ok ()

/-- The blanket `CreditCard` instance for a text-like type, bundling the
`Display` of its associated error type `InvalidCard`. -/
def blanketImpl {T : Type} (as_ref : T → String) : CreditCardImpl T InvalidCard :=
  { display := InvalidCard.display
    validate_credit_card := blanketValidateCreditCard as_ref }

/-- `as_ref` view of `String` itself (`AsRef<str> for String`). -/
def strAsRef (s : String) : String := s

/-- `as_ref` view of a pair through its first component: a second
text-like container type, used to compare outcomes across container
types. -/
def pairFst (p : String × Nat) : String := p.1

/-- A bespoke `CreditCard` implementation (not the blanket one): its
associated error type is `String` with the identity `Display`, and its
`validate_credit_card` always fails with the error "boom". -/
def bespokeImpl : CreditCardImpl Nat String :=
  { display := fun e => e
    validate_credit_card := fun _ => Except.error "boom" }

/-- C1: For every value of a text-like type (the blanket implementation,
over any `as_ref` view), the entrypoint `apply` returns either success or
a single normalized error whose message is exactly
"not a valid credit card number: " followed by one of the five mapped
reasons. -/
theorem apply_blanket_message_in_vocabulary {T : Type} (as_ref : T → String) (v : T) :
    apply (blanketImpl as_ref) v () = Except.ok () ∨
    ∃ r, (r = "invalid format" ∨ r = "invalid length" ∨ r = "invalid luhn" ∨
          r = "unknown type" ∨ r = "unknown error") ∧
      apply (blanketImpl as_ref) v () =
        Except.error (Error.new ("not a valid credit card number: " ++ r)) := by
  cases h : card_validate_from (as_ref v) with
  | ok t =>
      left
      simp [apply, blanketImpl, blanketValidateCreditCard, h]
  | error e =>
      right
      refine ⟨InvalidCard.display (InvalidCard.fromRaw e), ?_, ?_⟩
      · cases e <;> simp [InvalidCard.display, InvalidCard.fromRaw]
      · simp [apply, blanketImpl, blanketValidateCreditCard, h]

/-- C2: For every capability implementation and every value, `apply`
returns success if and only if `validate_credit_card` returns success,
and returns an error if and only if `validate_credit_card` returns an
error: result polarity is preserved exactly through the wrapping layer. -/
theorem apply_polarity_preserved {T E : Type} (inst : CreditCardImpl T E) (v : T) :
    ((apply inst v () = Except.ok ()) ↔
      (inst.validate_credit_card v = Except.ok ())) ∧
    ((∃ err, apply inst v () = Except.error err) ↔
      (∃ e, inst.validate_credit_card v = Except.error e)) := by
  cases h : inst.validate_credit_card v with
  | ok u => cases u; simp [apply, h]
  | error e => simp [apply, h]

/-- C3: The error mapping from raw reasons to message text is 1:1 on the
four classified reasons, with fixed messages and no interpolation of the
raw error's details; every raw reason outside these four maps to
"unknown error", and the "unknown error" fallback is never produced for
one of the four known kinds. -/
theorem invalidCard_display_mapping :
    InvalidCard.display ⟨ValidateError.InvalidFormat⟩ = "invalid format" ∧
    InvalidCard.display ⟨ValidateError.InvalidLength⟩ = "invalid length" ∧
    InvalidCard.display ⟨ValidateError.InvalidLuhn⟩ = "invalid luhn" ∧
    InvalidCard.display ⟨ValidateError.UnknownType⟩ = "unknown type" ∧
    (∀ e₁ e₂ : ValidateError,
      e₁ ∈ [ValidateError.InvalidFormat, ValidateError.InvalidLength,
            ValidateError.InvalidLuhn, ValidateError.UnknownType] →
      e₂ ∈ [ValidateError.InvalidFormat, ValidateError.InvalidLength,
            ValidateError.InvalidLuhn, ValidateError.UnknownType] →
      InvalidCard.display ⟨e₁⟩ = InvalidCard.display ⟨e₂⟩ → e₁ = e₂) ∧
    (∀ tag, InvalidCard.display ⟨ValidateError.Other tag⟩ = "unknown error") ∧
    (∀ e, InvalidCard.display ⟨e⟩ = "unknown error" →
      e ≠ ValidateError.InvalidFormat ∧ e ≠ ValidateError.InvalidLength ∧
      e ≠ ValidateError.InvalidLuhn ∧ e ≠ ValidateError.UnknownType) := by
  refine ⟨rfl, rfl, rfl, rfl, ?_, ?_, ?_⟩
  · intro e₁ e₂ h₁ h₂ heq
    fin_cases h₁ <;> fin_cases h₂ <;> simp_all [InvalidCard.display]
  · intro tag; rfl
  · intro e he
    cases e <;> simp_all [InvalidCard.display]

/-- C3 witness: the mapping theorem applied at the concrete unclassified
raw reason `Other "new_reason"` and at the classified pair
(`InvalidLuhn`, `UnknownType`). -/
theorem invalidCard_display_mapping_witness :
    InvalidCard.display ⟨ValidateError.Other "new_reason"⟩ = "unknown error" ∧
    ValidateError.Other "new_reason" ≠ ValidateError.InvalidLuhn := by
  obtain ⟨h1, h2, h3, h4, hinj, hother, hnever⟩ := invalidCard_display_mapping
  exact ⟨hother "new_reason", ((hnever (ValidateError.Other "new_reason") rfl).2).2.1⟩

/-- C4: For every capability implementation and every value (including
malformed input), `apply` returns exactly one of success or a single
normalized error; in the embedding it is a total function, so it never
panics or aborts. -/
theorem apply_single_outcome {T E : Type} (inst : CreditCardImpl T E) (v : T) (cfg : Unit) :
    (apply inst v cfg = Except.ok () ∧ ¬ ∃ err, apply inst v cfg = Except.error err) ∨
    ((∃! err, apply inst v cfg = Except.error err) ∧ apply inst v cfg ≠ Except.ok ()) := by
  cases h : inst.validate_credit_card v with
  | ok u =>
      left
      cases u
      constructor
      · simp [apply, h]
      · rintro ⟨err, herr⟩
        simp [apply, h] at herr
  | error e =>
      right
      constructor
      · refine ⟨Error.new ("not a valid credit card number: " ++ inst.display e),
          by simp [apply, h], ?_⟩
        intro y hy
        simp [apply, h] at hy
        exact hy.symm
      · simp [apply, h]

/-- C5: The delegated card-validation routine performs its checks in
order — format, then length, then Luhn, then issuer classification — so
the first check in that order to fail determines the reported reason.
The routine is modelled from the spec (`card_validate_from`). -/
theorem card_validate_check_order (s : String) :
    (formatValid s = false →
      card_validate_from s = Except.error ValidateError.InvalidFormat) ∧
    (formatValid s = true → lengthValid s = false →
      card_validate_from s = Except.error ValidateError.InvalidLength) ∧
    (formatValid s = true → lengthValid s = true → luhnValid s = false →
      card_validate_from s = Except.error ValidateError.InvalidLuhn) ∧
    (formatValid s = true → lengthValid s = true → luhnValid s = true →
      classifyIssuer s = none →
      card_validate_from s = Except.error ValidateError.UnknownType) ∧
    (∀ t, formatValid s = true → lengthValid s = true → luhnValid s = true →
      classifyIssuer s = some t → card_validate_from s = Except.ok t) := by
  refine ⟨?_, ?_, ?_, ?_, ?_⟩
  · intro hf; simp [card_validate_from, hf]
  · intro hf hl; simp [card_validate_from, hf, hl]
  · intro hf hl hlu; simp [card_validate_from, hf, hl, hlu]
  · intro hf hl hlu hc; simp [card_validate_from, hf, hl, hlu, hc]
  · intro t hf hl hlu hc; simp [card_validate_from, hf, hl, hlu, hc]

/-- C5 witness: the check-order theorem applied at one concrete input per
branch — a malformed string, a short digit string, a Luhn-failing number,
an unrecognised-issuer number, and a valid Visa number. -/
theorem card_validate_check_order_witness :
    card_validate_from "4111-abcd-1111-1111" = Except.error ValidateError.InvalidFormat ∧
    card_validate_from "123456" = Except.error ValidateError.InvalidLength ∧
    card_validate_from "4111111111111112" = Except.error ValidateError.InvalidLuhn ∧
    card_validate_from "1234567890123452" = Except.error ValidateError.UnknownType ∧
    card_validate_from "4111111111111111" = Except.ok CardType.Visa :=
  ⟨(card_validate_check_order "4111-abcd-1111-1111").1 rfl,
   (card_validate_check_order "123456").2.1 rfl rfl,
   (card_validate_check_order "4111111111111112").2.2.1 rfl rfl rfl,
   (card_validate_check_order "1234567890123452").2.2.2.1 rfl rfl rfl rfl,
   (card_validate_check_order "4111111111111111").2.2.2.2 CardType.Visa rfl rfl rfl rfl⟩

/-- C6: Calling `apply` twice on the same unmodified value yields
identical results both times — the entrypoint is deterministic, with no
hidden state, so the two runs agree on success/failure and on the error
message. -/
theorem apply_idempotent {T E : Type} (inst : CreditCardImpl T E) (v : T)
    (r₁ r₂ : Except Error Unit)
    (h₁ : apply inst v () = r₁) (h₂ : apply inst v () = r₂) : r₁ = r₂ :=
  h₁.symm.trans h₂

/-- C6 witness: two runs of the entrypoint on the concrete Luhn-failing
number produce the same error result. -/
theorem apply_idempotent_witness :
    (Except.error (Error.new "not a valid credit card number: invalid luhn") :
      Except Error Unit) =
    Except.error (Error.new "not a valid credit card number: invalid luhn") :=
  apply_idempotent (blanketImpl strAsRef) "4111111111111112"
    (Except.error (Error.new "not a valid credit card number: invalid luhn"))
    (Except.error (Error.new "not a valid credit card number: invalid luhn"))
    rfl rfl

/-- C7: For every text value that passes the format, length and Luhn
checks and is classified to a recognised issuer network, the entrypoint
`apply` (through the blanket implementation) returns success.  The checks
are modelled from the spec. -/
theorem apply_valid_card_success {T : Type} (as_ref : T → String) (v : T)
    (hf : formatValid (as_ref v) = true) (hl : lengthValid (as_ref v) = true)
    (hlu : luhnValid (as_ref v) = true) (t : CardType)
    (ht : classifyIssuer (as_ref v) = some t) :
    apply (blanketImpl as_ref) v () = Except.ok () := by
  simp [apply, blanketImpl, blanketValidateCreditCard, card_validate_from, hf, hl, hlu, ht]

/-- C7 witness: the success theorem applied at the standard Visa test
number "4111111111111111". -/
theorem apply_valid_card_success_witness :
    apply (blanketImpl strAsRef) "4111111111111111" () = Except.ok () :=
  apply_valid_card_success strAsRef "4111111111111111" rfl rfl rfl CardType.Visa rfl

/-- C9: For any two values of (possibly different) text-like types whose
`as_ref` string contents are equal, the blanket `validate_credit_card`
and the entrypoint `apply` produce identical outcomes: the result depends
only on the string content, not on the concrete container type. -/
theorem apply_depends_only_on_string {T U : Type}
    (as_refT : T → String) (as_refU : U → String) (v : T) (u : U)
    (h : as_refT v = as_refU u) :
    blanketValidateCreditCard as_refT v = blanketValidateCreditCard as_refU u ∧
    apply (blanketImpl as_refT) v () = apply (blanketImpl as_refU) u () := by
  constructor
  · simp [blanketValidateCreditCard, h]
  · simp [apply, blanketImpl, blanketValidateCreditCard, h]

/-- C9 witness: the content-dependence theorem applied to the string
"123456" held directly in a `String` and held as the first component of a
pair — two different container types with equal string content. -/
theorem apply_depends_only_on_string_witness :
    blanketValidateCreditCard strAsRef "123456" =
      blanketValidateCreditCard pairFst ("123456", 7) ∧
    apply (blanketImpl strAsRef) "123456" () =
      apply (blanketImpl pairFst) ("123456", 7) () :=
  apply_depends_only_on_string strAsRef pairFst "123456" ("123456", 7) rfl

/-- C10: The fixed-prefix contract holds for every capability
implementation, not only the blanket text adapter: whenever
`validate_credit_card` fails with error `e`, `apply` returns an error
whose message is exactly "not a valid credit card number: " followed by
the `Display` rendering of `e`, verbatim. -/
theorem apply_fixed_message_any_impl {T E : Type} (inst : CreditCardImpl T E) (v : T) (e : E)
    (h : inst.validate_credit_card v = Except.error e) :
    apply inst v () =
      Except.error (Error.new ("not a valid credit card number: " ++ inst.display e)) := by
  simp [apply, h]

/-- C10 witness: the fixed-prefix theorem applied to a bespoke
implementation whose validation always fails with the error "boom". -/
theorem apply_fixed_message_any_impl_witness :
    apply bespokeImpl 0 () =
      Except.error (Error.new "not a valid credit card number: boom") :=
  apply_fixed_message_any_impl bespokeImpl 0 "boom" rfl

end Garde
